import Mathlib

/-!
Verification of the GEngine order-tracking backend (two source variants:
`order-tracking-backend.js`, the inline-metafield variant, called "variant B"
below, and the unnamed file, the file-reference variant, called "variant A").
JavaScript strings that are split and concatenated are modelled as `List Char`;
strings that are only compared for equality are modelled as Lean `String`.
Timestamps are modelled by their epoch value in milliseconds (an `Int`,
the value of a JavaScript `Date`); the float division
`(now - createdAt) / (1000*60*60*24) <= 3` is equivalent to the exact integer
comparison `now - createdAt <= 3 * 86400000` because epoch differences are
below 2^53 (so the subtraction is exact) and the quotient of an integer
by 86400000 can never round across the value 3 (the nearest integers to
3 * 86400000 give quotients at distance at least 1e-8 from 3, far above the
float spacing of roughly 4e-16 near 3).
-/

namespace OrderTracking

/-- JavaScript string modelled as its character sequence. -/
abbrev JStr := List Char

/-- The literal tag appended by the confirm-payment handler. -/
def pcTag : JStr := "payment-confirmed".data

/-- Prepend a character to the first chunk of a split result (used to model
left-to-right scanning of `String.prototype.split`). -/
def consHead (c : Char) : List JStr → List JStr
  | [] => [[c]]
  | h :: t => (c :: h) :: t

/-- JavaScript `s.split(", ")`: scan left to right, cut at every
(non-overlapping) occurrence of the two-character separator. -/
def jsSplit : JStr → List JStr
  | [] => [[]]
  | [c] => [[c]]
  | c :: d :: rest =>
    if c = ',' ∧ d = ' ' then [] :: jsSplit rest
    else consHead c (jsSplit (d :: rest))

/-- JavaScript `a.join(", ")`. -/
def jsJoin : List JStr → JStr
  | [] => []
  | [x] => x
  | x :: y :: ys => x ++ ',' :: ' ' :: jsJoin (y :: ys)

/-- A chunk contains no occurrence of the separator `", "`. -/
def sepFree : JStr → Bool
  | [] => true
  | [_] => true
  | c :: d :: rest => if c = ',' ∧ d = ' ' then false else sepFree (d :: rest)

/-- JavaScript truthiness of a nullable string: `null`/`undefined` and the
empty string are falsy, every other string is truthy. -/
def jsTruthyOpt : Option String → Bool
  | none => false
  | some s => decide (s ≠ "")

/-- The tag list read by the handlers: `order.tags ? order.tags.split(', ') : []`. -/
def jsTags (t : JStr) : List JStr :=
  if t = [] then [] else jsSplit t

/-- The confirm-payment handler's tag mutation: push `payment-confirmed`
unless it is already present. -/
def addConfirmTag (l : List JStr) : List JStr :=
  if pcTag ∈ l then l else l ++ [pcTag]

/-- The tag string written back by the confirm-payment handler:
split, conditionally push, join. -/
def updateTagsStr (t : JStr) : JStr :=
  jsJoin (addConfirmTag (jsTags t))

/-- JavaScript `orderNumber.replace('#', '')`: remove the first occurrence
of the character `#`. -/
def cleanOrderNumber : JStr → JStr
  | [] => []
  | c :: rest => if c = '#' then rest else c :: cleanOrderNumber rest

/-- The REST query string sent by every handler's order lookup. -/
def ordersQuery (n : JStr) : JStr :=
  "orders.json?name=".data ++ n ++ "&status=any".data

/-- JavaScript `reason || 'customer'`: a missing or empty reason falls back
to the default. -/
def jsOrDefault (r : Option String) (d : String) : String :=
  match r with
  | none => d
  | some s => if s = "" then d else s

/-- A Shopify order as read by the handlers. Fields the handlers never
inspect (line items, monetary totals, customer object) are omitted; they are
only copied or float-formatted into presentation fields of the response.
`created_at` is the epoch-millisecond value of the ISO creation timestamp
(the value of `new Date(order.created_at)`). -/
structure Order where
  id : Int
  name : String
  created_at : Int
  email : String
  financial_status : Option String
  fulfillment_status : Option String
  cancelled_at : Option String
  tags : JStr
deriving DecidableEq

/-- A metafield entry returned by `orders/:id/metafields.json`. -/
structure Metafield where
  id : Int
  mfNamespace : String
  key : String
  value : String
deriving DecidableEq

/-- Body of `orders.json?name=...&status=any`; the handlers test
`!ordersResponse.orders || ordersResponse.orders.length === 0`,
so a missing `orders` field is modelled by `none`. -/
structure OrdersResponse where
  orders : Option (List Order)
deriving DecidableEq

/-- Body of the metafields read; the handlers access it through the
optional chain `metafieldsResponse.metafields?.find(...)`. -/
structure MetafieldsResponse where
  metafields : Option (List Metafield)
deriving DecidableEq

/-- The metafield lookup shared by the handlers:
`metafields?.find(mf => mf.namespace === ns && mf.key === key)`. -/
def findMetafield (resp : MetafieldsResponse) (ns key : String) : Option Metafield :=
  (resp.metafields.getD []).find? (fun mf => mf.mfNamespace == ns && mf.key == key)

/-- Variant B `mapOrderStatus` (tag/fulfillment-driven, from
`order-tracking-backend.js`). -/
def mapOrderStatusB (o : Order) : String :=
  if jsTruthyOpt o.cancelled_at then "cancelled"
  else if o.fulfillment_status = some "fulfilled" then "delivered"
  else if o.fulfillment_status = some "partial" ∨ o.fulfillment_status = some "shipped" then
    "shipped"
  else if pcTag ∈ jsTags o.tags then "processing"
  else if o.financial_status = some "paid" then "confirmed"
  else if o.financial_status = some "pending" ∨ o.financial_status = some "authorized" then
    "pending_payment"
  else "pending_payment"

/-- The admin-set stage values accepted by variant A. -/
def validStages : List String := ["processing", "shipped", "delivered"]

/-- Variant A stage extraction: `if (fsm && fsm.value)` then lowercase the
value and accept it only when it is a valid stage; an invalid, empty or
absent value falls through to the financial-status rules. -/
def metafieldStage : Option Metafield → Option String
  | none => none
  | some m =>
    if m.value = "" then none
    else
      let stage := m.value.toLower
      if stage ∈ validStages then some stage else none

/-- Variant A `mapOrderStatus` (metafield-driven, from the unnamed file). -/
def mapOrderStatusA (o : Order) (fsm : Option Metafield) : String :=
  if jsTruthyOpt o.cancelled_at then "cancelled"
  else
    match metafieldStage fsm with
    | some stage => stage
    | none =>
      if o.financial_status = some "paid" then "confirmed"
      else if o.financial_status = some "pending" ∨ o.financial_status = some "authorized"
          ∨ o.financial_status = some "partially_paid" then "pending_payment"
      else "pending_payment"

/-- `canCancelOrder` (identical in both variants). `now` is the current epoch
millisecond value; the source's float comparison
`(now - createdAt) / 86400000 <= 3` equals the exact integer comparison
below (see the file header). -/
def canCancelOrder (o : Order) (now : Int) : Bool :=
  if jsTruthyOpt o.cancelled_at then false
  else if o.fulfillment_status = some "fulfilled" ∨ o.fulfillment_status = some "shipped" then
    false
  else decide (now - o.created_at ≤ 3 * (1000 * 60 * 60 * 24))

/-- The inline payment-slip payload written by the variant B upload handler
(`JSON.stringify`-ed into the metafield value). `data` stands for the base64
encoding of the uploaded bytes (`req.file.buffer.toString('base64')`). -/
structure SlipData where
  filename : String
  mimetype : String
  size : Int
  uploadedAt : String
  data : String
deriving DecidableEq

/-- The `paymentSlip` field of the lookup view: variant B embeds the parsed
inline payload, variant A embeds `{fileId: value, uploaded: true}`. -/
inductive SlipView where
  | inlineSlip (d : SlipData)
  | fileRef (fileId : String)
deriving DecidableEq

/-- The derived order view. Presentation fields produced by floating-point
or locale formatting of order fields (price strings, amounts, localized
date, items, phone fallback) are omitted; each is a function of the same
located order only. -/
structure OrderView where
  id : Int
  number : String
  createdAt : Int
  status : String
  email : String
  financialStatus : Option String
  fulfillmentStatus : Option String
  cancelled : Bool
  cancelledAt : Option String
  paymentSlip : Option SlipView
  canCancel : Bool
deriving DecidableEq

/-- Build the view shared by both lookup handlers; `cancelled` models
`order.cancelled_at !== null`. -/
def mkView (o : Order) (status : String) (slip : Option SlipView) (now : Int) : OrderView :=
  { id := o.id
    number := o.name
    createdAt := o.created_at
    status := status
    email := o.email
    financialStatus := o.financial_status
    fulfillmentStatus := o.fulfillment_status
    cancelled := o.cancelled_at.isSome
    cancelledAt := o.cancelled_at
    paymentSlip := slip
    canCancel := canCancelOrder o now }

/-- Localized message: order not found. -/
def msgOrderNotFound : String := "لم يتم العثور على الطلب"

/-- Localized message: generic lookup failure. -/
def msgErrorFetching : String := "حدث خطأ أثناء جلب بيانات الطلب"

/-- Localized message: no file uploaded. -/
def msgNoFile : String := "لم يتم تحميل أي ملف"

/-- Localized message: upload success. -/
def msgUploadSuccess : String := "تم رفع إيصال الدفع بنجاح"

/-- Localized message: generic upload failure. -/
def msgUploadError : String := "حدث خطأ أثناء رفع الملف"

/-- Localized message: payment confirmed. -/
def msgConfirmSuccess : String := "تم تأكيد الدفع بنجاح"

/-- Localized message: generic confirm failure. -/
def msgConfirmError : String := "حدث خطأ أثناء تأكيد الدفع"

/-- Localized message: cancellation window violated. -/
def msgCannotCancel : String := "لا يمكن إلغاء الطلب بعد مرور 3 أيام"

/-- Localized message: order cancelled. -/
def msgCancelSuccess : String := "تم إلغاء الطلب بنجاح"

/-- Localized message: generic cancel failure. -/
def msgCancelError : String := "حدث خطأ أثناء إلغاء الطلب"

/-- JSON response bodies sent by the handlers. -/
inductive RespBody where
  | errorMsg (msg : String)
  | lookupOk (view : OrderView)
  | uploadOk (message : String) (name : String) (size : Int) (uploadedAt : String)
  | simpleOk (message : String)
deriving DecidableEq

/-- An HTTP response: status code and JSON body. -/
abbrev HResp := Nat × RespBody

/-- The metafield value written by the upload handlers: variant B writes the
stringified inline payload with type `json`, variant A writes the Shopify
file id with type `file_reference`. -/
inductive MetafieldWrite where
  | json (slip : SlipData)
  | fileReference (fileId : String)
deriving DecidableEq

/-- Outbound calls a handler can issue, in order. -/
inductive Call where
  | getOrders (query : JStr)
  | getMetafields (orderId : Int)
  | putMetafield (orderId : Int) (metafieldId : Int) (ns key : String) (value : MetafieldWrite)
  | postMetafield (orderId : Int) (ns key : String) (value : MetafieldWrite)
  | putOrderTags (orderId : Int) (tags : JStr)
  | cancelOrder (orderId : Int) (reason : String) (email : Bool)
  | stagedUploadsCreate (filename mimetype : String)
  | storageUpload (url : String) (filename mimetype : String)
  | fileCreate (alt : String) (resourceUrl : String)
deriving DecidableEq

/-- The uploaded file as produced by multer's memory storage; `buffer64`
stands for the base64 encoding of the uploaded bytes. -/
structure UploadFile where
  originalname : String
  mimetype : String
  size : Int
  buffer64 : String
deriving DecidableEq

/-- One staged target from `stagedUploadsCreate` (its form parameters are
only forwarded to the storage request and are not modelled). -/
structure StagedTarget where
  url : String
  resourceUrl : String
deriving DecidableEq

/-- Payload of the `stagedUploadsCreate` GraphQL mutation. -/
structure StagedUploadsCreatePayload where
  stagedTargets : List StagedTarget
  userErrors : List String
deriving DecidableEq

/-- A Shopify file object returned by `fileCreate`. -/
structure ShopifyFile where
  id : String
deriving DecidableEq

/-- Payload of the `fileCreate` GraphQL mutation. -/
structure FileCreatePayload where
  files : List ShopifyFile
  userErrors : List String
deriving DecidableEq

/-- Outcome of one HTTPS exchange as seen by `makeShopifyRequest`:
either the request errored at the transport, or a response arrived with a
status code and a body. `parsed` is the result of `JSON.parse` on the raw
body: `some` of the decoded payload when the body is valid JSON, `none`
otherwise. -/
inductive HttpOutcome (α : Type) where
  | networkError (msg : String)
  | response (status : Nat) (parsed : Option α) (raw : String)
deriving DecidableEq

/-- Rejection reasons of variant B `makeShopifyRequest`: the transport error
is forwarded, a non-2xx status rejects with the status and raw body, an
unparsable body rejects with the raw body. -/
inductive ReqError where
  | transport (msg : String)
  | upstream (status : Nat) (body : String)
  | decode (body : String)
deriving DecidableEq

/-- Variant B `makeShopifyRequest`: the body is parsed first (inside the
`try`), then the status range decides resolve/reject; a parse failure is
caught and rejected as a decode error whatever the status was. -/
def makeShopifyRequest {α : Type} (o : HttpOutcome α) : Except ReqError α :=
  match o with
  | .networkError m => .error (.transport m)
  | .response status parsed raw =>
    match parsed with
    | some j => if 200 ≤ status ∧ status < 300 then .ok j else .error (.upstream status raw)
    | none => .error (.decode raw)

/-- Rejection reasons of variant A `makeShopifyRequest`: identical control
flow, but the upstream rejection re-serializes the parsed body
(`JSON.stringify(jsonResponse)`) and the decode rejection reports the
status with the truncated raw body. -/
inductive ReqErrorA (α : Type) where
  | transport (msg : String)
  | upstream (status : Nat) (payload : α)
  | decode (status : Nat) (body : String)
deriving DecidableEq

/-- Variant A `makeShopifyRequest` (adds logging, otherwise the same
parse-then-status classification). -/
def makeShopifyRequestA {α : Type} (o : HttpOutcome α) : Except (ReqErrorA α) α :=
  match o with
  | .networkError m => .error (.transport m)
  | .response status parsed raw =>
    match parsed with
    | some j => if 200 ≤ status ∧ status < 300 then .ok j else .error (.upstream status j)
    | none => .error (.decode status raw)

/-- GET `/api/order/:orderNumber`, variant B. Inputs after the path
parameter are the outcomes of the handler's successive platform calls and
the current time; `slipParsed` is the result of `JSON.parse` on the
`payment_slip` metafield value when that metafield exists (`none` when the
value is not valid JSON, in which case the `try` block throws and the catch
sends the generic 500). Returns the response and the calls issued. -/
def lookupHandlerB (orderNumber : JStr)
    (ordersResp : Except String OrdersResponse)
    (metafieldsResp : Except String MetafieldsResponse)
    (slipParsed : Option SlipData) (now : Int) : HResp × List Call :=
  let q := ordersQuery (cleanOrderNumber orderNumber)
  match ordersResp with
  | .error _ => ((500, .errorMsg msgErrorFetching), [.getOrders q])
  | .ok r =>
    match r.orders with
    | none => ((404, .errorMsg msgOrderNotFound), [.getOrders q])
    | some [] => ((404, .errorMsg msgOrderNotFound), [.getOrders q])
    | some (order :: _) =>
      match metafieldsResp with
      | .error _ => ((500, .errorMsg msgErrorFetching), [.getOrders q, .getMetafields order.id])
      | .ok mresp =>
        let calls := [Call.getOrders q, Call.getMetafields order.id]
        match findMetafield mresp "custom" "payment_slip" with
        | some _ =>
          match slipParsed with
          | none => ((500, .errorMsg msgErrorFetching), calls)
          | some slip =>
            ((200, .lookupOk (mkView order (mapOrderStatusB order)
              (some (.inlineSlip slip)) now)), calls)
        | none =>
          ((200, .lookupOk (mkView order (mapOrderStatusB order) none now)), calls)

/-- GET `/api/order/:orderNumber`, variant A: also reads the
`fulfillment_stage` metafield for status derivation, and embeds the
`payment_slip` metafield value as a file reference without parsing it. -/
def lookupHandlerA (orderNumber : JStr)
    (ordersResp : Except String OrdersResponse)
    (metafieldsResp : Except String MetafieldsResponse) (now : Int) : HResp × List Call :=
  let q := ordersQuery (cleanOrderNumber orderNumber)
  match ordersResp with
  | .error _ => ((500, .errorMsg msgErrorFetching), [.getOrders q])
  | .ok r =>
    match r.orders with
    | none => ((404, .errorMsg msgOrderNotFound), [.getOrders q])
    | some [] => ((404, .errorMsg msgOrderNotFound), [.getOrders q])
    | some (order :: _) =>
      match metafieldsResp with
      | .error _ => ((500, .errorMsg msgErrorFetching), [.getOrders q, .getMetafields order.id])
      | .ok mresp =>
        let calls := [Call.getOrders q, Call.getMetafields order.id]
        let slip := (findMetafield mresp "custom" "payment_slip").map
          (fun mf => SlipView.fileRef mf.value)
        let fsm := findMetafield mresp "custom" "fulfillment_stage"
        ((200, .lookupOk (mkView order (mapOrderStatusA order fsm) slip now)), calls)

/-- POST `/api/order/:orderNumber/upload-payment`, variant B (inline
strategy). `nowIso` is the ISO string of the encode-time clock reading
(`new Date().toISOString()`). -/
def uploadHandlerB (orderNumber : JStr) (file : Option UploadFile)
    (ordersResp : Except String OrdersResponse)
    (metafieldsResp : Except String MetafieldsResponse)
    (writeResp : Except String Unit) (nowIso : String) : HResp × List Call :=
  match file with
  | none => ((400, .errorMsg msgNoFile), [])
  | some f =>
    let q := ordersQuery (cleanOrderNumber orderNumber)
    match ordersResp with
    | .error _ => ((500, .errorMsg msgUploadError), [.getOrders q])
    | .ok r =>
      match r.orders with
      | none => ((404, .errorMsg msgOrderNotFound), [.getOrders q])
      | some [] => ((404, .errorMsg msgOrderNotFound), [.getOrders q])
      | some (order :: _) =>
        let fileData : SlipData :=
          { filename := f.originalname
            mimetype := f.mimetype
            size := f.size
            uploadedAt := nowIso
            data := f.buffer64 }
        match metafieldsResp with
        | .error _ =>
          ((500, .errorMsg msgUploadError), [.getOrders q, .getMetafields order.id])
        | .ok mresp =>
          let writeCall :=
            match findMetafield mresp "custom" "payment_slip" with
            | some mf => Call.putMetafield order.id mf.id "custom" "payment_slip" (.json fileData)
            | none => Call.postMetafield order.id "custom" "payment_slip" (.json fileData)
          let calls := [Call.getOrders q, Call.getMetafields order.id, writeCall]
          match writeResp with
          | .error _ => ((500, .errorMsg msgUploadError), calls)
          | .ok _ =>
            ((200, .uploadOk msgUploadSuccess f.originalname f.size fileData.uploadedAt), calls)

/-- POST `/api/order/:orderNumber/upload-payment`, variant A (reference
strategy): staged upload, storage transfer, `fileCreate`, then the
metafield write. After every step succeeds, the source builds the success
response from `fileData.uploadedAt`, but no `fileData` binding exists in
this handler: evaluating the response object throws a `ReferenceError`,
which the surrounding catch converts into the generic upload-error 500. -/
def uploadHandlerA (orderNumber : JStr) (file : Option UploadFile)
    (ordersResp : Except String OrdersResponse)
    (stagedResp : Except String StagedUploadsCreatePayload)
    (storageResp : Except String Unit)
    (fileCreateResp : Except String FileCreatePayload)
    (metafieldsResp : Except String MetafieldsResponse)
    (writeResp : Except String Unit) : HResp × List Call :=
  match file with
  | none => ((400, .errorMsg msgNoFile), [])
  | some f =>
    let q := ordersQuery (cleanOrderNumber orderNumber)
    match ordersResp with
    | .error _ => ((500, .errorMsg msgUploadError), [.getOrders q])
    | .ok r =>
      match r.orders with
      | none => ((404, .errorMsg msgOrderNotFound), [.getOrders q])
      | some [] => ((404, .errorMsg msgOrderNotFound), [.getOrders q])
      | some (order :: _) =>
        let calls1 := [Call.getOrders q, Call.stagedUploadsCreate f.originalname f.mimetype]
        match stagedResp with
        | .error _ => ((500, .errorMsg msgUploadError), calls1)
        | .ok staged =>
          if staged.userErrors ≠ [] then ((500, .errorMsg msgUploadError), calls1)
          else
            match staged.stagedTargets with
            | [] =>
              -- `stagedTargets[0]` is `undefined`; reading `.url` throws,
              -- caught by the handler's catch.
              ((500, .errorMsg msgUploadError), calls1)
            | target :: _ =>
              let calls2 := calls1 ++ [.storageUpload target.url f.originalname f.mimetype]
              match storageResp with
              | .error _ => ((500, .errorMsg msgUploadError), calls2)
              | .ok _ =>
                let calls3 := calls2 ++
                  [.fileCreate ("Payment slip for order " ++ order.name) target.resourceUrl]
                match fileCreateResp with
                | .error _ => ((500, .errorMsg msgUploadError), calls3)
                | .ok fc =>
                  if fc.userErrors ≠ [] then ((500, .errorMsg msgUploadError), calls3)
                  else
                    match fc.files with
                    | [] =>
                      -- `files[0].id` throws on the empty list, caught.
                      ((500, .errorMsg msgUploadError), calls3)
                    | uploadedFile :: _ =>
                      let calls4 := calls3 ++ [Call.getMetafields order.id]
                      match metafieldsResp with
                      | .error _ => ((500, .errorMsg msgUploadError), calls4)
                      | .ok mresp =>
                        let writeCall :=
                          match findMetafield mresp "custom" "payment_slip" with
                          | some mf => Call.putMetafield order.id mf.id "custom" "payment_slip"
                              (.fileReference uploadedFile.id)
                          | none => Call.postMetafield order.id "custom" "payment_slip"
                              (.fileReference uploadedFile.id)
                        let calls5 := calls4 ++ [writeCall]
                        match writeResp with
                        | .error _ => ((500, .errorMsg msgUploadError), calls5)
                        | .ok _ =>
                          -- ReferenceError on the unbound `fileData` while
                          -- building the success body, caught by the catch.
                          ((500, .errorMsg msgUploadError), calls5)

/-- POST `/api/order/:orderNumber/confirm-payment` (identical in both
variants): split the tag string, push `payment-confirmed` unless present,
write the joined list back. -/
def confirmPaymentHandler (orderNumber : JStr)
    (ordersResp : Except String OrdersResponse)
    (updateResp : Except String Unit) : HResp × List Call :=
  let q := ordersQuery (cleanOrderNumber orderNumber)
  match ordersResp with
  | .error _ => ((500, .errorMsg msgConfirmError), [.getOrders q])
  | .ok r =>
    match r.orders with
    | none => ((404, .errorMsg msgOrderNotFound), [.getOrders q])
    | some [] => ((404, .errorMsg msgOrderNotFound), [.getOrders q])
    | some (order :: _) =>
      let calls := [Call.getOrders q, Call.putOrderTags order.id (updateTagsStr order.tags)]
      match updateResp with
      | .error _ => ((500, .errorMsg msgConfirmError), calls)
      | .ok _ => ((200, .simpleOk msgConfirmSuccess), calls)

/-- POST `/api/order/:orderNumber/cancel` (identical in both variants):
re-validate `canCancelOrder` server-side; on failure respond 400 with the
fixed message and issue nothing further; otherwise cancel with the given
reason (default `customer`) and `email: true`. -/
def cancelHandler (orderNumber : JStr) (reason : Option String)
    (ordersResp : Except String OrdersResponse)
    (cancelResp : Except String Unit) (now : Int) : HResp × List Call :=
  let q := ordersQuery (cleanOrderNumber orderNumber)
  match ordersResp with
  | .error _ => ((500, .errorMsg msgCancelError), [.getOrders q])
  | .ok r =>
    match r.orders with
    | none => ((404, .errorMsg msgOrderNotFound), [.getOrders q])
    | some [] => ((404, .errorMsg msgOrderNotFound), [.getOrders q])
    | some (order :: _) =>
      if ¬ canCancelOrder order now then
        ((400, .errorMsg msgCannotCancel), [.getOrders q])
      else
        let calls := [Call.getOrders q,
          Call.cancelOrder order.id (jsOrDefault reason "customer") true]
        match cancelResp with
        | .error _ => ((500, .errorMsg msgCancelError), calls)
        | .ok _ => ((200, .simpleOk msgCancelSuccess), calls)

/-- Concrete order used by witnesses: cancelled, and every lower-priority
rule would fire if reached. -/
def sampleCancelledOrder : Order :=
  { id := 9000
    name := "#1006"
    created_at := 0
    email := "c@example.com"
    financial_status := some "paid"
    fulfillment_status := some "fulfilled"
    cancelled_at := some "2024-01-05T10:00:00Z"
    tags := "payment-confirmed".data }

/-- Concrete order used by witnesses: paid, nothing else set. -/
def samplePaidOrder : Order :=
  { id := 9001
    name := "#1006"
    created_at := 0
    email := "c@example.com"
    financial_status := some "paid"
    fulfillment_status := none
    cancelled_at := none
    tags := [] }

/-- Concrete order used by witnesses: pending payment. -/
def samplePendingOrder : Order :=
  { id := 9002
    name := "#2051"
    created_at := 0
    email := "c@example.com"
    financial_status := some "pending"
    cancelled_at := none
    fulfillment_status := none
    tags := [] }

/-- Concrete order used by witnesses: a financial status outside every
listed value. -/
def sampleVoidedOrder : Order :=
  { id := 9003
    name := "#2052"
    created_at := 0
    email := "c@example.com"
    financial_status := some "voided"
    cancelled_at := none
    fulfillment_status := none
    tags := [] }

/-- Concrete order used by witnesses: fulfilled, not cancelled. -/
def sampleFulfilledOrder : Order :=
  { id := 9004
    name := "#2053"
    created_at := 0
    email := "c@example.com"
    financial_status := some "paid"
    cancelled_at := none
    fulfillment_status := some "fulfilled"
    tags := [] }

/-- Concrete fulfillment-stage metafield used by witnesses. -/
def sampleStageMf : Metafield :=
  { id := 41, mfNamespace := "custom", key := "fulfillment_stage", value := "Shipped" }

/-- Concrete uploaded file used by witnesses. -/
def sampleFile : UploadFile :=
  { originalname := "slip.jpg"
    mimetype := "image/jpeg"
    size := 12345
    buffer64 := "QUJDRA==" }

/-- Concrete staged-upload payload used by witnesses. -/
def sampleStaged : StagedUploadsCreatePayload :=
  { stagedTargets := [{ url := "https://storage.example/upload"
                        resourceUrl := "https://storage.example/result" }]
    userErrors := [] }

/-- Concrete file-create payload used by witnesses. -/
def sampleFileCreate : FileCreatePayload :=
  { files := [{ id := "gid-shopify-MediaImage-1" }]
    userErrors := [] }

/-- Concrete metafields response holding a payment slip whose value is not
valid JSON. -/
def sampleBadSlipMetafields : MetafieldsResponse :=
  { metafields := some [{ id := 77
                          mfNamespace := "custom"
                          key := "payment_slip"
                          value := "not json" }] }

theorem consHead_ne_nil (c : Char) (l : List JStr) : consHead c l ≠ [] := by
  cases l <;> simp [consHead]

theorem jsSplit_ne_nil (s : JStr) : jsSplit s ≠ [] := by
  induction s using jsSplit.induct with
  | case1 => simp [jsSplit]
  | case2 c => simp [jsSplit]
  | case3 c d rest h ih => simp [jsSplit, h]
  | case4 c d rest h ih =>
    simp only [jsSplit, if_neg h]
    cases hsp : jsSplit (d :: rest) <;> simp [consHead]

theorem jsSplit_head_shape (c : Char) (rest : JStr) (h : JStr) (t : List JStr)
    (e : jsSplit (c :: rest) = h :: t) : h = [] ∨ ∃ h2, h = c :: h2 := by
  cases rest with
  | nil =>
    simp only [jsSplit, List.cons.injEq] at e
    right
    exact ⟨[], e.1.symm⟩
  | cons d r =>
    by_cases hc : c = ',' ∧ d = ' '
    · simp only [jsSplit, if_pos hc, List.cons.injEq] at e
      left
      exact e.1.symm
    · simp only [jsSplit, if_neg hc] at e
      cases hsp : jsSplit (d :: r) with
      | nil => exact absurd hsp (jsSplit_ne_nil _)
      | cons h0 t0 =>
        rw [hsp] at e
        simp only [consHead, List.cons.injEq] at e
        right
        exact ⟨h0, e.1.symm⟩

theorem sepFree_of_mem_jsSplit (s : JStr) : ∀ x ∈ jsSplit s, sepFree x = true := by
  induction s using jsSplit.induct with
  | case1 =>
    intro x hx
    simp only [jsSplit, List.mem_singleton] at hx
    subst hx
    rfl
  | case2 c =>
    intro x hx
    simp only [jsSplit, List.mem_singleton] at hx
    subst hx
    rfl
  | case3 c d rest h ih =>
    intro x hx
    simp only [jsSplit, if_pos h, List.mem_cons] at hx
    rcases hx with rfl | hx
    · rfl
    · exact ih x hx
  | case4 c d rest h ih =>
    intro x hx
    simp only [jsSplit, if_neg h] at hx
    cases hsp : jsSplit (d :: rest) with
    | nil => exact absurd hsp (jsSplit_ne_nil _)
    | cons h0 t0 =>
      rw [hsp] at hx
      simp only [consHead, List.mem_cons] at hx
      rcases hx with rfl | hx
      · have hsf : sepFree h0 = true := ih h0 (by rw [hsp]; exact List.mem_cons_self _ _)
        cases h0 with
        | nil => rfl
        | cons e h1 =>
          have hed : e = d := by
            rcases jsSplit_head_shape d rest (e :: h1) t0 hsp with h' | ⟨h2, hh⟩
            · exact absurd h' (by simp)
            · exact (List.cons.injEq .. ▸ hh).1
          subst hed
          simpa [sepFree, h] using hsf
      · exact ih x (by rw [hsp]; exact List.mem_cons_of_mem _ hx)

theorem jsSplit_of_sepFree (s : JStr) (h : sepFree s = true) : jsSplit s = [s] := by
  induction s using jsSplit.induct with
  | case1 => rfl
  | case2 c => rfl
  | case3 c d rest hc ih => simp [sepFree, hc] at h
  | case4 c d rest hc ih =>
    have h' : sepFree (d :: rest) = true := by simpa [sepFree, hc] using h
    simp [jsSplit, hc, ih h', consHead]

theorem jsSplit_append_sep (x z : JStr) (h : sepFree x = true) :
    jsSplit (x ++ ',' :: ' ' :: z) = x :: jsSplit z := by
  induction x using jsSplit.induct with
  | case1 => simp [jsSplit]
  | case2 c =>
    have hne : ¬(c = ',' ∧ ',' = ' ') := by simp
    simp [jsSplit, hne, consHead]
  | case3 c d rest hc ih => simp [sepFree, hc] at h
  | case4 c d rest hc ih =>
    have h' : sepFree (d :: rest) = true := by simpa [sepFree, hc] using h
    have step : (d :: rest) ++ ',' :: ' ' :: z = d :: (rest ++ ',' :: ' ' :: z) := rfl
    simp only [List.cons_append]
    rw [show jsSplit (c :: d :: (rest ++ ',' :: ' ' :: z))
          = if c = ',' ∧ d = ' ' then [] :: jsSplit (rest ++ ',' :: ' ' :: z)
            else consHead c (jsSplit (d :: (rest ++ ',' :: ' ' :: z))) from rfl]
    rw [if_neg hc, ← step, ih h']
    simp [consHead]

theorem jsSplit_jsJoin (l : List JStr) (hl : l ≠ []) (h : ∀ x ∈ l, sepFree x = true) :
    jsSplit (jsJoin l) = l := by
  induction l with
  | nil => exact absurd rfl hl
  | cons x xs ih =>
    cases xs with
    | nil => simpa [jsJoin] using jsSplit_of_sepFree x (h x (by simp))
    | cons y ys =>
      have hx : sepFree x = true := h x (by simp)
      rw [show jsJoin (x :: y :: ys) = x ++ ',' :: ' ' :: jsJoin (y :: ys) from rfl]
      rw [jsSplit_append_sep x _ hx]
      rw [ih (by simp) (fun z hz => h z (List.mem_cons_of_mem _ hz))]

theorem jsJoin_ne_nil (l : List JStr) (x : JStr) (hx : x ∈ l) (hne : x ≠ []) :
    jsJoin l ≠ [] := by
  cases l with
  | nil => cases hx
  | cons y ys =>
    cases ys with
    | nil =>
      simp only [List.mem_singleton] at hx
      subst hx
      simpa [jsJoin] using hne
    | cons z zs => simp [jsJoin]

theorem sepFree_mem_jsTags (t : JStr) : ∀ x ∈ jsTags t, sepFree x = true := by
  intro x hx
  by_cases ht : t = []
  · simp [jsTags, ht] at hx
  · exact sepFree_of_mem_jsSplit t x (by simpa [jsTags, ht] using hx)

theorem pcTag_mem_addConfirmTag (l : List JStr) : pcTag ∈ addConfirmTag l := by
  unfold addConfirmTag
  split
  · assumption
  · simp

theorem sepFree_mem_addConfirmTag (t : JStr) :
    ∀ x ∈ addConfirmTag (jsTags t), sepFree x = true := by
  intro x hx
  unfold addConfirmTag at hx
  split at hx
  · exact sepFree_mem_jsTags t x hx
  · rcases List.mem_append.mp hx with hx | hx
    · exact sepFree_mem_jsTags t x hx
    · simp only [List.mem_singleton] at hx
      subst hx
      decide

theorem jsTags_updateTagsStr (t : JStr) :
    jsTags (updateTagsStr t) = addConfirmTag (jsTags t) := by
  have hmem := pcTag_mem_addConfirmTag (jsTags t)
  have hne : updateTagsStr t ≠ [] :=
    jsJoin_ne_nil _ pcTag hmem (by decide)
  have hlne : addConfirmTag (jsTags t) ≠ [] := by
    intro e
    rw [e] at hmem
    cases hmem
  have : jsTags (updateTagsStr t) = jsSplit (updateTagsStr t) := by
    unfold jsTags
    rw [if_neg hne]
  rw [this]
  unfold updateTagsStr
  exact jsSplit_jsJoin _ hlne (sepFree_mem_addConfirmTag t)

theorem addConfirmTag_of_mem (l : List JStr) (h : pcTag ∈ l) : addConfirmTag l = l := by
  unfold addConfirmTag
  rw [if_pos h]

theorem updateTagsStr_idem (t : JStr) :
    updateTagsStr (updateTagsStr t) = updateTagsStr t := by
  have h1 := jsTags_updateTagsStr t
  rw [show updateTagsStr (updateTagsStr t) = jsJoin (addConfirmTag (jsTags (updateTagsStr t)))
        from rfl]
  rw [h1, addConfirmTag_of_mem _ (pcTag_mem_addConfirmTag _)]
  rfl

/-- C1: for every order whose cancellation timestamp is present (a
timestamp is a non-empty string), both status-derivation variants return
`cancelled`, whatever the other fields, the stage metafield and the tags
hold. -/
theorem c1_cancelled_dominates (o : Order) (fsm : Option Metafield) (ts : String)
    (hc : o.cancelled_at = some ts) (hts : ts ≠ "") :
    mapOrderStatusA o fsm = "cancelled" ∧ mapOrderStatusB o = "cancelled" := by
  have ht : jsTruthyOpt o.cancelled_at = true := by simp [jsTruthyOpt, hc, hts]
  constructor
  · simp [mapOrderStatusA, ht]
  · simp [mapOrderStatusB, ht]

/-- Witness for C1 at a cancelled order on which every lower-priority rule
would otherwise fire. -/
theorem c1_cancelled_dominates_witness :
    mapOrderStatusA sampleCancelledOrder (some sampleStageMf) = "cancelled"
    ∧ mapOrderStatusB sampleCancelledOrder = "cancelled" :=
  c1_cancelled_dominates sampleCancelledOrder (some sampleStageMf)
    "2024-01-05T10:00:00Z" rfl (by decide)

/-- C2: `canCancelOrder` is false when a cancellation timestamp is present;
false when the fulfillment status is `fulfilled` or `shipped`, at every age;
otherwise it is true exactly when the order is at most three days old
(boundary inclusive, in epoch milliseconds). -/
theorem c2_canCancel_characterization (o : Order) (now : Int) :
    (∀ ts : String, o.cancelled_at = some ts → ts ≠ "" → canCancelOrder o now = false)
    ∧ ((o.fulfillment_status = some "fulfilled" ∨ o.fulfillment_status = some "shipped") →
        canCancelOrder o now = false)
    ∧ (o.cancelled_at = none → o.fulfillment_status ≠ some "fulfilled" →
        o.fulfillment_status ≠ some "shipped" →
        ((now - o.created_at ≤ 3 * (1000 * 60 * 60 * 24) → canCancelOrder o now = true)
         ∧ (3 * (1000 * 60 * 60 * 24) < now - o.created_at → canCancelOrder o now = false))) := by
  refine ⟨?_, ?_, ?_⟩
  · intro ts hc hts
    simp [canCancelOrder, jsTruthyOpt, hc, hts]
  · intro h
    by_cases hjt : jsTruthyOpt o.cancelled_at <;> simp [canCancelOrder, hjt, h]
  · intro hc h1 h2
    have ht : jsTruthyOpt o.cancelled_at = false := by simp [jsTruthyOpt, hc]
    constructor
    · intro hle
      simp [canCancelOrder, ht, h1, h2]
      omega
    · intro hgt
      simp [canCancelOrder, ht, h1, h2]
      omega

/-- Witness for C2: a cancelled order, a fulfilled order at age zero, and a
plain order at exactly three days and at three days plus one millisecond. -/
theorem c2_canCancel_characterization_witness :
    canCancelOrder sampleCancelledOrder 0 = false
    ∧ canCancelOrder sampleFulfilledOrder 0 = false
    ∧ canCancelOrder samplePendingOrder 259200000 = true
    ∧ canCancelOrder samplePendingOrder 259200001 = false :=
  ⟨(c2_canCancel_characterization sampleCancelledOrder 0).1
      "2024-01-05T10:00:00Z" rfl (by decide),
   (c2_canCancel_characterization sampleFulfilledOrder 0).2.1 (Or.inl rfl),
   ((c2_canCancel_characterization samplePendingOrder 259200000).2.2 rfl
      (by decide) (by decide)).1 (by decide),
   ((c2_canCancel_characterization samplePendingOrder 259200001).2.2 rfl
      (by decide) (by decide)).2 (by decide)⟩

/-- C3: when no higher-priority rule fires (no cancellation; in variant A
no valid stage metafield value; in variant B no fulfilled/partial/shipped
status and no `payment-confirmed` tag), a paid order maps to `confirmed`,
a pending/authorized/partially_paid order maps to `pending_payment`, and
every other financial status falls to the `pending_payment` default. -/
theorem c3_financial_rules :
    (∀ (o : Order) (fsm : Option Metafield),
      jsTruthyOpt o.cancelled_at = false → metafieldStage fsm = none →
      ((o.financial_status = some "paid" → mapOrderStatusA o fsm = "confirmed")
       ∧ ((o.financial_status = some "pending" ∨ o.financial_status = some "authorized"
            ∨ o.financial_status = some "partially_paid") →
           mapOrderStatusA o fsm = "pending_payment")
       ∧ (o.financial_status ≠ some "paid" → mapOrderStatusA o fsm = "pending_payment")))
    ∧ (∀ o : Order,
      jsTruthyOpt o.cancelled_at = false →
      o.fulfillment_status ≠ some "fulfilled" → o.fulfillment_status ≠ some "partial" →
      o.fulfillment_status ≠ some "shipped" → pcTag ∉ jsTags o.tags →
      ((o.financial_status = some "paid" → mapOrderStatusB o = "confirmed")
       ∧ ((o.financial_status = some "pending" ∨ o.financial_status = some "authorized"
            ∨ o.financial_status = some "partially_paid") →
           mapOrderStatusB o = "pending_payment")
       ∧ (o.financial_status ≠ some "paid" → mapOrderStatusB o = "pending_payment"))) := by
  constructor
  · intro o fsm hcanc hst
    refine ⟨?_, ?_, ?_⟩
    · intro hp
      simp [mapOrderStatusA, hcanc, hst, hp]
    · rintro (hf | hf | hf) <;> simp [mapOrderStatusA, hcanc, hst, hf]
    · intro hp
      simp only [mapOrderStatusA, hcanc, Bool.false_eq_true, if_false, hst]
      rw [if_neg hp]
      split <;> rfl
  · intro o hcanc h1 h2 h3 htag
    refine ⟨?_, ?_, ?_⟩
    · intro hp
      simp [mapOrderStatusB, hcanc, h1, h2, h3, htag, hp]
    · rintro (hf | hf | hf) <;> simp [mapOrderStatusB, hcanc, h1, h2, h3, htag, hf]
    · intro hp
      simp only [mapOrderStatusB, hcanc, Bool.false_eq_true, if_false]
      rw [if_neg h1, if_neg (by simp [h2, h3]), if_neg htag, if_neg hp]
      split <;> rfl

/-- Witness for C3 at a paid, a pending and a voided order, in both
variants (no stage metafield, no tags). -/
theorem c3_financial_rules_witness :
    mapOrderStatusA samplePaidOrder none = "confirmed"
    ∧ mapOrderStatusA samplePendingOrder none = "pending_payment"
    ∧ mapOrderStatusA sampleVoidedOrder none = "pending_payment"
    ∧ mapOrderStatusB samplePaidOrder = "confirmed"
    ∧ mapOrderStatusB samplePendingOrder = "pending_payment"
    ∧ mapOrderStatusB sampleVoidedOrder = "pending_payment" :=
  ⟨(c3_financial_rules.1 samplePaidOrder none rfl rfl).1 rfl,
   (c3_financial_rules.1 samplePendingOrder none rfl rfl).2.1 (Or.inl rfl),
   (c3_financial_rules.1 sampleVoidedOrder none rfl rfl).2.2 (by decide),
   (c3_financial_rules.2 samplePaidOrder rfl (by decide) (by decide) (by decide)
      (by decide)).1 rfl,
   (c3_financial_rules.2 samplePendingOrder rfl (by decide) (by decide) (by decide)
      (by decide)).2.1 (Or.inl rfl),
   (c3_financial_rules.2 sampleVoidedOrder rfl (by decide) (by decide) (by decide)
      (by decide)).2.2 (by decide)⟩

/-- C4: the confirm-payment tag update appends `payment-confirmed` only
when absent: applying the handler's read-modify-write twice equals applying
it once, the written tag list grows by at most one element, an
already-confirmed order's tag list is written back unchanged, and the
handler issues exactly the order-update call carrying this tag string. -/
theorem c4_confirm_idempotent (t : JStr) :
    updateTagsStr (updateTagsStr t) = updateTagsStr t
    ∧ (jsTags (updateTagsStr t)).length ≤ (jsTags t).length + 1
    ∧ (pcTag ∈ jsTags t → jsTags (updateTagsStr t) = jsTags t)
    ∧ (∀ (num : JStr) (o : Order) (rest : List Order) (upd : Except String Unit),
        (confirmPaymentHandler num (.ok ⟨some (o :: rest)⟩) upd).2
          = [.getOrders (ordersQuery (cleanOrderNumber num)),
             .putOrderTags o.id (updateTagsStr o.tags)]) := by
  refine ⟨updateTagsStr_idem t, ?_, ?_, ?_⟩
  · rw [jsTags_updateTagsStr]
    unfold addConfirmTag
    split
    · omega
    · simp
  · intro hmem
    rw [jsTags_updateTagsStr, addConfirmTag_of_mem _ hmem]
  · intro num o rest upd
    cases upd <;> rfl

/-- Witness for C4 at a tag string already holding `payment-confirmed`. -/
theorem c4_confirm_idempotent_witness :
    jsTags (updateTagsStr "vip, payment-confirmed".data)
      = jsTags "vip, payment-confirmed".data :=
  (c4_confirm_idempotent "vip, payment-confirmed".data).2.2.1 (by decide)

/-- C5: on a located order, when `canCancelOrder` is false the cancel
handler answers 400 with the fixed message and issues no call beyond the
lookup (in particular no cancel call); when it is true the handler issues
the platform cancel carrying the request's reason (default `customer`) and
`email: true`. -/
theorem c5_cancel_gating (num : JStr) (reason : Option String)
    (cancelResp : Except String Unit) (now : Int) (order : Order) (rest : List Order) :
    (canCancelOrder order now = false →
      cancelHandler num reason (.ok ⟨some (order :: rest)⟩) cancelResp now
        = ((400, .errorMsg msgCannotCancel),
           [.getOrders (ordersQuery (cleanOrderNumber num))]))
    ∧ (canCancelOrder order now = true →
      (cancelHandler num reason (.ok ⟨some (order :: rest)⟩) cancelResp now).2
        = [.getOrders (ordersQuery (cleanOrderNumber num)),
           .cancelOrder order.id (jsOrDefault reason "customer") true]) := by
  constructor
  · intro h
    simp [cancelHandler, h]
  · intro h
    cases cancelResp <;> simp [cancelHandler, h]

/-- Witness for C5: an order created ten days before `now` yields the 400
with only the lookup call; a fresh order yields the cancel call with the
default reason and customer notification. -/
theorem c5_cancel_gating_witness :
    cancelHandler "1006".data none (.ok ⟨some [samplePendingOrder]⟩) (.ok ()) 864000000
      = ((400, .errorMsg msgCannotCancel),
         [.getOrders (ordersQuery (cleanOrderNumber "1006".data))])
    ∧ (cancelHandler "1006".data none (.ok ⟨some [samplePendingOrder]⟩) (.ok ()) 0).2
      = [.getOrders (ordersQuery (cleanOrderNumber "1006".data)),
         .cancelOrder samplePendingOrder.id "customer" true] :=
  ⟨(c5_cancel_gating "1006".data none (.ok ()) 864000000 samplePendingOrder []).1
      (by decide),
   (c5_cancel_gating "1006".data none (.ok ()) 0 samplePendingOrder []).2 (by decide)⟩

/-- C6: a fully successful upload (file attached, order found, every
persistence step succeeding). The inline variant answers with the success
message and the echo of filename, size and encode-time timestamp; the
reference variant instead answers the generic 500 upload error, because its
success response reads the unbound `fileData` binding and the resulting
`ReferenceError` is caught by the handler's catch. -/
theorem c6_upload_success_echo :
    (uploadHandlerB "#1006".data (some sampleFile) (.ok ⟨some [samplePaidOrder]⟩)
        (.ok ⟨some []⟩) (.ok ()) "2026-10-11T00:00:00.000Z").1
      = (200, .uploadOk msgUploadSuccess "slip.jpg" 12345 "2026-10-11T00:00:00.000Z")
    ∧ (uploadHandlerA "#1006".data (some sampleFile) (.ok ⟨some [samplePaidOrder]⟩)
        (.ok sampleStaged) (.ok ()) (.ok sampleFileCreate) (.ok ⟨some []⟩) (.ok ())).1
      = (500, .errorMsg msgUploadError) := by
  constructor
  · rfl
  · rfl

/-- Helper for C7: removing the first `#` from a string without `#` changes
nothing. -/
theorem cleanOrderNumber_of_not_mem (n : JStr) (h : '#' ∉ n) :
    cleanOrderNumber n = n := by
  induction n with
  | nil => rfl
  | cons c rest ih =>
    simp only [List.mem_cons, not_or] at h
    rw [show cleanOrderNumber (c :: rest)
          = if c = '#' then rest else c :: cleanOrderNumber rest from rfl]
    rw [if_neg (fun e => h.1 e.symm), ih h.2]

/-- C7: order-number cleaning strips an optional `#` prefix and leaves a
clean number unchanged, and each of the route handlers behaves identically
on `"#1006"` and `"1006"` (same query, same calls, same response). -/
theorem c7_clean_idempotent :
    (∀ n : JStr, '#' ∉ n → cleanOrderNumber n = n ∧ cleanOrderNumber ('#' :: n) = n)
    ∧ ordersQuery (cleanOrderNumber "#1006".data) = ordersQuery (cleanOrderNumber "1006".data)
    ∧ (∀ a b s now,
        lookupHandlerB "#1006".data a b s now = lookupHandlerB "1006".data a b s now)
    ∧ (∀ a b now, lookupHandlerA "#1006".data a b now = lookupHandlerA "1006".data a b now)
    ∧ (∀ f a b w iso,
        uploadHandlerB "#1006".data f a b w iso = uploadHandlerB "1006".data f a b w iso)
    ∧ (∀ f a st sto fc m w,
        uploadHandlerA "#1006".data f a st sto fc m w
          = uploadHandlerA "1006".data f a st sto fc m w)
    ∧ (∀ a u, confirmPaymentHandler "#1006".data a u = confirmPaymentHandler "1006".data a u)
    ∧ (∀ r a c now, cancelHandler "#1006".data r a c now = cancelHandler "1006".data r a c now)
    := by
  have e : cleanOrderNumber "#1006".data = cleanOrderNumber "1006".data := by decide
  refine ⟨?_, by rw [e], ?_, ?_, ?_, ?_, ?_, ?_⟩
  · intro n h
    exact ⟨cleanOrderNumber_of_not_mem n h, rfl⟩
  · intro a b s now
    simp only [lookupHandlerB, e]
  · intro a b now
    simp only [lookupHandlerA, e]
  · intro f a b w iso
    simp only [uploadHandlerB, e]
  · intro f a st sto fc m w
    simp only [uploadHandlerA, e]
  · intro a u
    simp only [confirmPaymentHandler, e]
  · intro r a c now
    simp only [cancelHandler, e]

/-- Witness for C7 at the clean number `1006`. -/
theorem c7_clean_idempotent_witness :
    cleanOrderNumber "1006".data = "1006".data
    ∧ cleanOrderNumber ('#' :: "1006".data) = "1006".data :=
  c7_clean_idempotent.1 "1006".data (by decide)

/-- C8 counterexample: a 500 response whose body is not valid JSON is
rejected as a decode error, not as the upstream error the claim requires
for every non-2xx response. -/
theorem c8_counterexample_decode_before_status :
    makeShopifyRequest (HttpOutcome.response 500 (none : Option Unit) "Internal Server Error")
      = Except.error (ReqError.decode "Internal Server Error")
    ∧ makeShopifyRequest (HttpOutcome.response 500 (none : Option Unit) "Internal Server Error")
      ≠ Except.error (ReqError.upstream 500 "Internal Server Error") := by
  constructor
  · rfl
  · intro h
    exact ReqError.noConfusion (Except.error.inj h)

/-- C8 (amended): the request client fails with a transport error on
network failure; every response body that is not valid JSON fails with a
decode error regardless of status; a valid-JSON response resolves to the
decoded payload unchanged on a 2xx status and fails with an upstream error
carrying the status and body otherwise — in both variants. -/
theorem c8_request_classification (α : Type) (m : String) (status : Nat) (raw : String)
    (j : α) :
    makeShopifyRequest (HttpOutcome.networkError m : HttpOutcome α)
      = Except.error (ReqError.transport m)
    ∧ makeShopifyRequest (HttpOutcome.response status (none : Option α) raw)
      = Except.error (ReqError.decode raw)
    ∧ (200 ≤ status ∧ status < 300 →
        makeShopifyRequest (HttpOutcome.response status (some j) raw) = Except.ok j)
    ∧ (¬(200 ≤ status ∧ status < 300) →
        makeShopifyRequest (HttpOutcome.response status (some j) raw)
          = Except.error (ReqError.upstream status raw))
    ∧ makeShopifyRequestA (HttpOutcome.networkError m : HttpOutcome α)
      = Except.error (ReqErrorA.transport m)
    ∧ makeShopifyRequestA (HttpOutcome.response status (none : Option α) raw)
      = Except.error (ReqErrorA.decode status raw)
    ∧ (200 ≤ status ∧ status < 300 →
        makeShopifyRequestA (HttpOutcome.response status (some j) raw) = Except.ok j)
    ∧ (¬(200 ≤ status ∧ status < 300) →
        makeShopifyRequestA (HttpOutcome.response status (some j) raw)
          = Except.error (ReqErrorA.upstream status j)) := by
  refine ⟨rfl, rfl, ?_, ?_, rfl, rfl, ?_, ?_⟩
  · intro h
    simp [makeShopifyRequest, h]
  · intro h
    simp [makeShopifyRequest, h]
  · intro h
    simp [makeShopifyRequestA, h]
  · intro h
    simp [makeShopifyRequestA, h]

/-- Witness for C8 at a 201 success and a 404 failure. -/
theorem c8_request_classification_witness :
    makeShopifyRequest (HttpOutcome.response 201 (some ()) "ok-body") = Except.ok ()
    ∧ makeShopifyRequest (HttpOutcome.response 404 (some ()) "nf-body")
      = Except.error (ReqError.upstream 404 "nf-body")
    ∧ makeShopifyRequestA (HttpOutcome.response 201 (some ()) "ok-body") = Except.ok ()
    ∧ makeShopifyRequestA (HttpOutcome.response 404 (some ()) "nf-body")
      = Except.error (ReqErrorA.upstream 404 ()) :=
  ⟨(c8_request_classification Unit "m" 201 "ok-body" ()).2.2.1 (by decide),
   (c8_request_classification Unit "m" 404 "nf-body" ()).2.2.2.1 (by decide),
   (c8_request_classification Unit "m" 201 "ok-body" ()).2.2.2.2.2.2.1 (by decide),
   (c8_request_classification Unit "m" 404 "nf-body" ()).2.2.2.2.2.2.2 (by decide)⟩

/-- C9: an upload request with no attached file is answered 400 with the
localized no-file message before any platform call, in both variants: the
issued call list is empty. -/
theorem c9_no_file_fast_fail (num : JStr) (a : Except String OrdersResponse)
    (b : Except String MetafieldsResponse) (w : Except String Unit) (iso : String)
    (a2 : Except String OrdersResponse) (st : Except String StagedUploadsCreatePayload)
    (sto : Except String Unit) (fc : Except String FileCreatePayload)
    (m2 : Except String MetafieldsResponse) (w2 : Except String Unit) :
    uploadHandlerB num none a b w iso = ((400, .errorMsg msgNoFile), [])
    ∧ uploadHandlerA num none a2 st sto fc m2 w2 = ((400, .errorMsg msgNoFile), []) :=
  ⟨rfl, rfl⟩

/-- C10: in the inline variant, when the order is found, both platform
calls succeed and a `payment_slip` metafield exists but its value is not
valid JSON, the lookup handler answers the generic 500 instead of a view. -/
theorem c10_invalid_slip_json (num : JStr) (order : Order) (rest : List Order)
    (mresp : MetafieldsResponse) (now : Int)
    (hmf : (findMetafield mresp "custom" "payment_slip").isSome = true) :
    lookupHandlerB num (.ok ⟨some (order :: rest)⟩) (.ok mresp) none now
      = ((500, .errorMsg msgErrorFetching),
         [.getOrders (ordersQuery (cleanOrderNumber num)), .getMetafields order.id]) := by
  obtain ⟨mf, hmf⟩ := Option.isSome_iff_exists.mp hmf
  simp [lookupHandlerB, hmf]

/-- Witness for C10 at a metafield list whose payment slip value is the
non-JSON string `not json`. -/
theorem c10_invalid_slip_json_witness :
    lookupHandlerB "1006".data (.ok ⟨some [samplePaidOrder]⟩)
        (.ok sampleBadSlipMetafields) none 0
      = ((500, .errorMsg msgErrorFetching),
         [.getOrders (ordersQuery (cleanOrderNumber "1006".data)),
          .getMetafields samplePaidOrder.id]) :=
  c10_invalid_slip_json "1006".data samplePaidOrder [] sampleBadSlipMetafields 0 (by decide)

end OrderTracking
